import Mathlib

/-!
Verification of the malldims inventory backend (Django, `backend/inventory/`).

The development shallowly embeds the pricing services (`services.py`),
the batch model mutations (`models.py`), the transaction-creation
serializer (`serializers.py`) and the reference-number endpoint
(`views.py`).  Database tables become lists of records, Django
`filter(...).first()` becomes `List.find?`, `Decimal` becomes `Rat`,
and raising a validation error becomes an `Except`/`Option` failure.
-/

namespace Malldims

/-- A customer row (`models.Customer`); only the primary key matters here. -/
structure CustomerT where
  customer_id : Nat
deriving DecidableEq, Repr

/-- An item row (`models.Item`); the fields read by the embedded code. -/
structure ItemT where
  item_id : Nat
  brand_id : Nat
deriving DecidableEq, Repr

/-- A seller account (`models.Account`); only the primary key matters here. -/
structure AccountT where
  account_id : Nat
deriving DecidableEq, Repr

/-- Modelled from the spec: the `CustomerBrandPricing` table
(`CustomerBrandTierAssignment` in the spec, (customer, brand) → tier) is
imported by `services.py`/`views.py` but its model class is absent from
`src`; its rows carry a customer, a brand and a pricing tier code. -/
structure CustomerBrandPricing where
  customer_id : Nat
  brand_id : Nat
  pricing_tier : String
deriving DecidableEq, Repr

/-- Modelled from the spec: the `ItemTierPricing` table (`ItemTierPrice`
in the spec, (item, tier) → list price) is imported by
`services.py`/`views.py` but its model class is absent from `src`. -/
structure ItemTierPricing where
  item_id : Nat
  pricing_tier : String
  price : Rat
deriving DecidableEq, Repr

/-- Modelled from the spec: the `CustomerSpecialPricing` table
(`CustomerSpecialDiscount` in the spec, (customer, item) → signed
discount) is imported by `services.py`/`views.py` but its model class is
absent from `src`. -/
structure CustomerSpecialPricing where
  customer_id : Nat
  item_id : Nat
  discount : Rat
deriving DecidableEq, Repr

/-- The pricing tables visible to `PricingService`. -/
structure PricingDb where
  customerBrandPricing : List CustomerBrandPricing
  itemTierPricing : List ItemTierPricing
  customerSpecialPricing : List CustomerSpecialPricing
deriving DecidableEq, Repr

/-- Typed rendering of the `pricing_details["error"]` strings set by
`PricingService.get_price` / `get_price_for_user_transaction`. -/
inductive PriceError where
  | NoTierAssigned
  | NoPriceAtTier
  | TierNotAllowed
deriving DecidableEq, Repr

/-- The fields of the `pricing_details` dict built by
`PricingService.get_price` that the embedded logic reads or writes. -/
structure PricingDetails where
  pricing_tier : Option String
  base_price : Rat
  special_discount : Rat
  final_price : Rat
  has_special_pricing : Bool
  error : Option PriceError
deriving DecidableEq, Repr

/-- `CustomerBrandPricing.objects.filter(customer=..., brand=item.brand).first()`. -/
def lookupBrandTier (db : PricingDb) (c : CustomerT) (i : ItemT) :
    Option CustomerBrandPricing :=
  db.customerBrandPricing.find? fun r =>
    r.customer_id == c.customer_id && r.brand_id == i.brand_id

/-- `ItemTierPricing.objects.filter(item=..., pricing_tier=...).first()`. -/
def lookupTierPrice (db : PricingDb) (i : ItemT) (tier : String) :
    Option ItemTierPricing :=
  db.itemTierPricing.find? fun r =>
    r.item_id == i.item_id && r.pricing_tier == tier

/-- `CustomerSpecialPricing.objects.filter(customer=..., item=...).first()`. -/
def lookupSpecial (db : PricingDb) (c : CustomerT) (i : ItemT) :
    Option CustomerSpecialPricing :=
  db.customerSpecialPricing.find? fun r =>
    r.customer_id == c.customer_id && r.item_id == i.item_id

/-- `PricingService.get_price` (services.py 21–98): resolve the
customer's tier for the item's brand, the item's list price at that
tier, then apply any special discount. -/
def get_price (db : PricingDb) (c : CustomerT) (i : ItemT) :
    Rat × PricingDetails :=
  let d0 : PricingDetails :=
    { pricing_tier := none, base_price := 0, special_discount := 0,
      final_price := 0, has_special_pricing := false, error := none }
  match lookupBrandTier db c i with
  | none => (0, { d0 with error := some .NoTierAssigned })
  | some cbp =>
    let tier := cbp.pricing_tier
    match lookupTierPrice db i tier with
    | none =>
      (0, { d0 with pricing_tier := some tier, error := some .NoPriceAtTier })
    | some itp =>
      let base := itp.price
      match lookupSpecial db c i with
      | some sp =>
        let det : PricingDetails :=
          { d0 with
            pricing_tier := some tier
            base_price := base
            special_discount := sp.discount
            final_price := base + sp.discount
            has_special_pricing := true }
        (base + sp.discount, det)
      | none =>
        let det : PricingDetails :=
          { d0 with
            pricing_tier := some tier
            base_price := base
            final_price := base }
        (base, det)

/-- `Account.get_allowed_selling_tiers` (models.py 32–37): every tier. -/
def get_allowed_selling_tiers (_u : AccountT) : List String :=
  ["RD", "PD", "DD", "CD", "RS", "SUB", "SRP"]

/-- Modelled from the spec: `Account.can_sell_at_tier`, called from
`PricingService.get_price_for_user_transaction`, is absent from the
`src` `Account` model; per the spec the requested tier "must be a
member of `seller_allowed_tiers`". -/
def can_sell_at_tier (u : AccountT) (tier : String) : Bool :=
  (get_allowed_selling_tiers u).contains tier

/-- Return shape of `get_price_for_user_transaction`: final price plus
the flags it adds to `pricing_details`. -/
structure UserPricingResult where
  final_price : Rat
  details : PricingDetails
  tier_restriction_violated : Bool
  tier_override : Bool
deriving DecidableEq, Repr

/-- `PricingService.get_price_for_user_transaction` (services.py
208–264): run the standard resolution first, then either validate and
apply a requested tier override, or check the customer's default tier
against the seller's allowed tiers. -/
def get_price_for_user_transaction (db : PricingDb) (c : CustomerT)
    (i : ItemT) (u : AccountT) (requested_tier : Option String) :
    UserPricingResult :=
  let fp := (get_price db c i).1
  let det := (get_price db c i).2
  let violated : UserPricingResult :=
    { final_price := 0
      details := { det with error := some .TierNotAllowed }
      tier_restriction_violated := true
      tier_override := false }
  let passthrough : UserPricingResult :=
    { final_price := fp
      details := det
      tier_restriction_violated := false
      tier_override := false }
  match requested_tier with
  | some t =>
    if !(can_sell_at_tier u t) then violated
    else
      match lookupTierPrice db i t with
      | some itp =>
        { final_price := itp.price
          details :=
            { det with
              pricing_tier := some t
              base_price := itp.price
              final_price := itp.price }
          tier_restriction_violated := false
          tier_override := true }
      | none => passthrough
  | none =>
    match det.pricing_tier with
    | some ct =>
      if !(can_sell_at_tier u ct) then violated else passthrough
    | none => passthrough

/-- `PricingService.validate_special_pricing_discount` (services.py
135–146): a special discount is valid when strictly negative. -/
def validate_special_pricing_discount (discount : Rat) : Bool :=
  discount < 0

/-- Typed rendering of the error responses of
`CustomerViewSet.add_special_pricing` (views.py 414–454). -/
inductive SpecialPricingError where
  | MissingFields
  | DiscountMustBeNegative
  | AlreadyExists
  | ItemNotFound
deriving DecidableEq, Repr

/-- `CustomerViewSet.add_special_pricing` (views.py 414–454): require
the fields, validate the discount, find the item, reject duplicates,
then create the special-pricing row. -/
def add_special_pricing (db : PricingDb) (customer_id : Nat)
    (items : List ItemT) (item_id : Option Nat) (discount : Option Rat) :
    Except SpecialPricingError CustomerSpecialPricing :=
  match item_id, discount with
  | none, _ => .error .MissingFields
  | some _, none => .error .MissingFields
  | some iid, some d =>
    if !(validate_special_pricing_discount d) then
      .error .DiscountMustBeNegative
    else
      match items.find? (fun it => it.item_id == iid) with
      | none => .error .ItemNotFound
      | some _ =>
        if db.customerSpecialPricing.any
            (fun r => r.customer_id == customer_id && r.item_id == iid) then
          .error .AlreadyExists
        else
          .ok { customer_id := customer_id, item_id := iid, discount := d }

/-- A transaction line as consumed by
`TransactionService.calculate_transaction_totals`. -/
structure TotalsLine where
  quantity : Int
  unit_price : Rat
deriving DecidableEq, Repr

/-- The dict returned by `calculate_transaction_totals`. -/
structure Totals where
  subtotal : Rat
  vat_amount : Rat
  total_amount : Rat
deriving DecidableEq, Repr

/-- `TransactionService.calculate_transaction_totals` (services.py
270–299): sum quantity × unit price, add 12% VAT. -/
def calculate_transaction_totals (items : List TotalsLine) : Totals :=
  let subtotal :=
    items.foldl (fun acc it => acc + (it.quantity : Rat) * it.unit_price) 0
  let vat_rate : Rat := 0.12
  let vat_amount := subtotal * vat_rate
  { subtotal := subtotal, vat_amount := vat_amount,
    total_amount := subtotal + vat_amount }

/-- The quantity-bearing state of an `InventoryBatch` row (models.py
253–433): the fields read and written by `reserve_quantity`,
`release_reservation` and `fulfill_order`. -/
structure BatchQty where
  initial_quantity : Int
  quantity_available : Int
  quantity_reserved : Int
  batch_status : String
deriving DecidableEq, Repr

/-- `InventoryBatch.reserve_quantity` (models.py 407–414): move stock
from available to reserved; `none` models the raised `ValueError`. -/
def reserve_quantity (q : Int) (b : BatchQty) : Option BatchQty :=
  if q > b.quantity_available then none
  else
    some { b with
      quantity_available := b.quantity_available - q
      quantity_reserved := b.quantity_reserved + q }

/-- `InventoryBatch.release_reservation` (models.py 416–423): move
reserved stock back to available. -/
def release_reservation (q : Int) (b : BatchQty) : Option BatchQty :=
  if q > b.quantity_reserved then none
  else
    some { b with
      quantity_reserved := b.quantity_reserved - q
      quantity_available := b.quantity_available + q }

/-- `InventoryBatch.fulfill_order` (models.py 425–433): consume
reserved stock; mark the batch sold out when nothing is left. -/
def fulfill_order (q : Int) (b : BatchQty) : Option BatchQty :=
  if q > b.quantity_reserved then none
  else
    let b' := { b with quantity_reserved := b.quantity_reserved - q }
    if b'.quantity_available + b'.quantity_reserved == 0 then
      some { b' with batch_status := "Sold Out" }
    else some b'

/-- A mutation of a batch's quantities, with its requested quantity. -/
inductive BatchOp where
  | reserve (q : Int)
  | release (q : Int)
  | fulfill (q : Int)
deriving DecidableEq, Repr

/-- The requested quantity of a batch operation. -/
def BatchOp.qty : BatchOp → Int
  | .reserve q => q
  | .release q => q
  | .fulfill q => q

/-- Apply one batch operation. -/
def applyBatchOp (b : BatchQty) : BatchOp → Option BatchQty
  | .reserve q => reserve_quantity q b
  | .release q => release_reservation q b
  | .fulfill q => fulfill_order q b

/-- Apply a sequence of batch operations, failing if any one fails. -/
def applyBatchOps (b : BatchQty) : List BatchOp → Option BatchQty
  | [] => some b
  | op :: ops => (applyBatchOp b op).bind (fun b' => applyBatchOps b' ops)

/-- The batch state created by the Receive-Products branch of
`TransactionCreateSerializer.create` (serializers.py 345, 367–380):
`initial_quantity = quantity_available = abs(quantity_change)`. -/
def createdBatchQty (quantity_change : Int) : BatchQty :=
  { initial_quantity := quantity_change.natAbs
    quantity_available := quantity_change.natAbs
    quantity_reserved := 0
    batch_status := "Active" }

/-- An `Item` row (models.py 125–143) as mutated by transactions:
stored quantity, threshold and derived availability status. -/
structure ItemRow where
  item_id : Nat
  quantity : Int
  threshold_value : Int
  availability_status : String
deriving DecidableEq, Repr

/-- An `InventoryBatch` row as created by transactions. -/
structure BatchRow where
  item_id : Nat
  batch_number : String
  cost_price : Rat
  initial_quantity : Int
  quantity_available : Int
  quantity_reserved : Int
  batch_status : String
deriving DecidableEq, Repr

/-- An `InventoryChange` row (the fields written by the serializer). -/
structure ChangeRow where
  item_id : Nat
  batch_number : Option String
  quantity_change : Int
  change_type : String
deriving DecidableEq, Repr

/-- A `Transaction` row (the fields the serializer logic reads). -/
structure TransactionRow where
  transaction_id : Nat
  transaction_type : String
deriving DecidableEq, Repr

/-- The ledger tables touched by `TransactionCreateSerializer.create`
and `TransactionService.update_inventory_for_transaction`. -/
structure DbState where
  items : List ItemRow
  batches : List BatchRow
  transactions : List TransactionRow
  changes : List ChangeRow
deriving DecidableEq, Repr

/-- One entry of the `items` list of a transaction-create request. -/
structure LineData where
  item : Nat
  quantity_change : Int
  batch_number : Option String
  cost_price : Option Rat
deriving DecidableEq, Repr

/-- A transaction-create request body. -/
structure CreateRequest where
  transaction_type : String
  items : List LineData
deriving DecidableEq, Repr

/-- Typed rendering of the `ValidationError`s raised inside
`TransactionCreateSerializer.create` (serializers.py 326–429). -/
inductive CreateError where
  | ItemDoesNotExist (item_id : Nat)
  | BatchNumberRequired
  | CostPriceRequired
  | BatchNumberExists (batch_number : String)
deriving DecidableEq, Repr

/-- The availability-status recomputation repeated in
`TransactionCreateSerializer.create` (serializers.py 396–402, 419–427). -/
def availabilityStatus (quantity threshold : Int) : String :=
  if quantity > threshold then "In Stock"
  else if quantity ≤ threshold ∧ quantity > 0 then "Low Stock"
  else "Out of Stock"

/-- `item.save()` after a quantity change: replace the item row, with
its availability status recomputed. -/
def saveItemQuantity (items : List ItemRow) (iid : Nat) (delta : Int) :
    List ItemRow :=
  items.map fun it =>
    if it.item_id == iid then
      let q := it.quantity + delta
      { it with quantity := q
                availability_status := availabilityStatus q it.threshold_value }
    else it

/-- One iteration of the per-item loop of
`TransactionCreateSerializer.create` (serializers.py 333–427): the
Receive-Products branch creates a batch and a change and adds stock;
the Dispatch-goods branch records a negative change and removes stock;
other types record a bare change. -/
def processLine (ttype : String) (st : DbState) (ld : LineData) :
    Except CreateError DbState :=
  match st.items.find? (fun it => it.item_id == ld.item) with
  | none => .error (.ItemDoesNotExist ld.item)
  | some item =>
    if ttype == "Receive Products" then
      let qc : Int := ld.quantity_change.natAbs
      match ld.batch_number with
      | none => .error .BatchNumberRequired
      | some bn =>
        match ld.cost_price with
        | none => .error .CostPriceRequired
        | some cp =>
          if cp == 0 then .error .CostPriceRequired
          else if (st.batches.any fun b =>
              b.item_id == item.item_id && b.batch_number == bn) then
            .error (.BatchNumberExists bn)
          else
            let batch : BatchRow :=
              { item_id := item.item_id
                batch_number := bn
                cost_price := cp
                initial_quantity := qc
                quantity_available := qc
                quantity_reserved := 0
                batch_status := "Active" }
            let change : ChangeRow :=
              { item_id := item.item_id
                batch_number := some bn
                quantity_change := qc
                change_type := "PURCHASE" }
            .ok { st with
              batches := batch :: st.batches
              changes := change :: st.changes
              items := saveItemQuantity st.items item.item_id qc }
    else
      let qc : Int :=
        if ttype == "Dispatch goods" then -(ld.quantity_change.natAbs : Int)
        else ld.quantity_change
      let change : ChangeRow :=
        { item_id := item.item_id
          batch_number := none
          quantity_change := qc
          change_type := if ttype == "Dispatch goods" then "SALE" else "ADJUSTMENT" }
      if ttype == "Dispatch goods" then
        .ok { st with
          changes := change :: st.changes
          items := saveItemQuantity st.items item.item_id qc }
      else
        .ok { st with changes := change :: st.changes }

/-- Run the per-item loop; a raised error keeps the mutations already
performed (no rollback exists in the source). -/
def runLines (ttype : String) (st : DbState) :
    List LineData → Option CreateError × DbState
  | [] => (none, st)
  | ld :: rest =>
    match processLine ttype st ld with
    | .error e => (some e, st)
    | .ok st' => runLines ttype st' rest

/-- The transaction row created at the top of
`TransactionCreateSerializer.create` (serializers.py 330), before any
line is processed. -/
def newTransactionRow (st : DbState) (req : CreateRequest) : TransactionRow :=
  { transaction_id := st.transactions.length + 1
    transaction_type := req.transaction_type }

/-- `TransactionCreateSerializer.create` (serializers.py 326–429):
create the transaction row, then process each line in order; the pair
returns the raised error (if any) together with the database state at
that point. -/
def createTransaction (st : DbState) (req : CreateRequest) :
    Option CreateError × DbState :=
  let st1 := { st with transactions := newTransactionRow st req :: st.transactions }
  runLines req.transaction_type st1 req.items

/-- Apply a sequence of transaction-create requests (each commits
whatever it mutated, whether or not it raised). -/
def applyRequests (st : DbState) (reqs : List CreateRequest) : DbState :=
  reqs.foldl (fun s r => (createTransaction s r).2) st

/-- `TransactionService.update_inventory_for_transaction` (services.py
301–331): INCOMING adds each line's quantity to the item's stored
quantity; OUTGOING subtracts it, clamping negative results to zero;
batches are never touched. -/
def update_inventory_for_transaction (ttype : String) (st : DbState)
    (lines : List (Nat × Int)) : DbState :=
  lines.foldl
    (fun s l =>
      { s with
        items := s.items.map fun it =>
          if it.item_id == l.1 then
            if ttype == "INCOMING" then
              { it with quantity := it.quantity + l.2 }
            else if ttype == "OUTGOING" then
              let q := it.quantity - l.2
              { it with quantity := if q < 0 then 0 else q }
            else it
          else it })
    st

/-- `ItemSerializer.get_total_available_quantity` (serializers.py
152–154): sum of `quantity_available` over the item's batches with
`batch_status='Active'`. -/
def get_total_available_quantity (st : DbState) (iid : Nat) : Int :=
  ((st.batches.filter fun b =>
      b.item_id == iid && b.batch_status == "Active").map
    (fun b => b.quantity_available)).sum

/-- Stated from the spec, for comparison with
`get_total_available_quantity`: the sum of remaining quantities across
all the item's batches with remaining quantity strictly positive. -/
def specAvailableQuantity (st : DbState) (iid : Nat) : Int :=
  ((st.batches.filter fun b =>
      b.item_id == iid && 0 < b.quantity_available).map
    (fun b => b.quantity_available)).sum

/-- `ItemBatchViewSet.next_reference_number` (views.py 1022–1046),
scoped to one year: take the largest existing reference sequence
number, add one; with no reference yet the next number is 1. -/
def next_reference_number (refs : List Nat) : Nat :=
  match refs.max? with
  | some last_number => last_number + 1
  | none => 1

/-- Two callers racing on `next_reference_number`: both read the same
list of existing references before either inserts, as nothing in the
source serializes the read-compute-insert sequence; the result is the
two returned values and the reference list after both inserts. -/
def raceNextReference (refs : List Nat) : Nat × Nat × List Nat :=
  let v1 := next_reference_number refs
  let v2 := next_reference_number refs
  (v1, v2, v2 :: v1 :: refs)

/-- The inductive quantity invariant of a batch: both pools are
nonnegative and together never exceed the initial quantity. -/
def BatchInv (b : BatchQty) : Prop :=
  0 ≤ b.quantity_available ∧ 0 ≤ b.quantity_reserved
    ∧ b.quantity_available + b.quantity_reserved ≤ b.initial_quantity

lemma batchInv_createdBatchQty (q : Int) : BatchInv (createdBatchQty q) := by
  simp [BatchInv, createdBatchQty]

lemma applyBatchOp_inv {b b' : BatchQty} {op : BatchOp} (hb : BatchInv b)
    (hq : 0 ≤ op.qty) (h : applyBatchOp b op = some b') :
    BatchInv b' ∧ b'.initial_quantity = b.initial_quantity := by
  obtain ⟨h1, h2, h3⟩ := hb
  cases op with
  | reserve q =>
    simp only [applyBatchOp, reserve_quantity] at h
    split at h
    · exact absurd h (by simp)
    · cases h
      refine ⟨⟨?_, ?_, ?_⟩, rfl⟩ <;> simp_all [BatchOp.qty] <;> omega
  | release q =>
    simp only [applyBatchOp, release_reservation] at h
    split at h
    · exact absurd h (by simp)
    · cases h
      refine ⟨⟨?_, ?_, ?_⟩, rfl⟩ <;> simp_all [BatchOp.qty] <;> omega
  | fulfill q =>
    simp only [applyBatchOp, fulfill_order] at h
    split at h
    · exact absurd h (by simp)
    · split at h <;> cases h <;>
        refine ⟨⟨?_, ?_, ?_⟩, rfl⟩ <;> simp_all [BatchOp.qty] <;> omega

lemma applyBatchOps_inv {ops : List BatchOp} {b b' : BatchQty}
    (hb : BatchInv b) (hq : ∀ op ∈ ops, 0 ≤ op.qty)
    (h : applyBatchOps b ops = some b') : BatchInv b' := by
  induction ops generalizing b with
  | nil => simp only [applyBatchOps] at h; cases h; exact hb
  | cons op rest ih =>
    simp only [applyBatchOps, Option.bind] at h
    cases hop : applyBatchOp b op with
    | none => rw [hop] at h; cases h
    | some b1 =>
      rw [hop] at h
      have hstep := applyBatchOp_inv hb (hq op (by simp)) hop
      exact ih hstep.1 (fun o ho => hq o (by simp [ho])) h

lemma foldl_line_total (l : List TotalsLine) (a : Rat) :
    l.foldl (fun acc it => acc + (it.quantity : Rat) * it.unit_price) a
      = a + (l.map fun it => (it.quantity : Rat) * it.unit_price).sum := by
  induction l generalizing a with
  | nil => simp
  | cons x xs ih => simp [ih, add_assoc]

/-- C10: for every list of transaction lines,
`calculate_transaction_totals` returns `subtotal` equal to the sum over
lines of quantity × unit price, `vat_amount = 0.12 × subtotal`, and
`total_amount = subtotal + vat_amount`, in exact rational arithmetic. -/
theorem calculate_transaction_totals_spec (items : List TotalsLine) :
    (calculate_transaction_totals items).subtotal
        = (items.map fun it => (it.quantity : Rat) * it.unit_price).sum
    ∧ (calculate_transaction_totals items).vat_amount
        = (12 / 100 : Rat) * (calculate_transaction_totals items).subtotal
    ∧ (calculate_transaction_totals items).total_amount
        = (calculate_transaction_totals items).subtotal
            + (calculate_transaction_totals items).vat_amount := by
  refine ⟨?_, ?_, ?_⟩
  · simp [calculate_transaction_totals, foldl_line_total]
  · have h : (calculate_transaction_totals items).vat_amount
        = (calculate_transaction_totals items).subtotal * (0.12 : Rat) := rfl
    rw [h, mul_comm]
    norm_num
  · rfl

/-- C2: `get_price` fails with `NoTierAssigned` when the customer has
no tier for the item's brand, fails with `NoPriceAtTier` when the item
has no list price at the assigned tier, and otherwise returns
base price + discount when a special discount exists for the
(customer, item) pair and the bare base price when none does. -/
theorem get_price_resolution (db : PricingDb) (c : CustomerT) (i : ItemT) :
    (lookupBrandTier db c i = none →
      (get_price db c i).2.error = some PriceError.NoTierAssigned
        ∧ (get_price db c i).1 = 0)
    ∧ (∀ cbp, lookupBrandTier db c i = some cbp →
        lookupTierPrice db i cbp.pricing_tier = none →
        (get_price db c i).2.error = some PriceError.NoPriceAtTier
          ∧ (get_price db c i).1 = 0)
    ∧ (∀ cbp itp sp, lookupBrandTier db c i = some cbp →
        lookupTierPrice db i cbp.pricing_tier = some itp →
        lookupSpecial db c i = some sp →
        (get_price db c i).1 = itp.price + sp.discount
          ∧ (get_price db c i).2.error = none)
    ∧ (∀ cbp itp, lookupBrandTier db c i = some cbp →
        lookupTierPrice db i cbp.pricing_tier = some itp →
        lookupSpecial db c i = none →
        (get_price db c i).1 = itp.price
          ∧ (get_price db c i).2.error = none) := by
  refine ⟨fun h1 => ?_, fun cbp h1 h2 => ?_, fun cbp itp sp h1 h2 h3 => ?_,
    fun cbp itp h1 h2 h3 => ?_⟩
  · simp [get_price, h1]
  · simp [get_price, h1, h2]
  · simp [get_price, h1, h2, h3]
  · simp [get_price, h1, h2, h3]

/-- C2 witness: the spec's scenario — tier `PD` assigned for the item's
brand, list price 90 at `PD`, special discount −15 — resolves to a
final price of 75 with no error. -/
theorem get_price_resolution_witness :
    (get_price ⟨[⟨1, 1, "PD"⟩], [⟨1, "PD", 90⟩], [⟨1, 1, -15⟩]⟩ ⟨1⟩ ⟨1, 1⟩).1 = 75
    ∧ (get_price ⟨[⟨1, 1, "PD"⟩], [⟨1, "PD", 90⟩], [⟨1, 1, -15⟩]⟩ ⟨1⟩ ⟨1, 1⟩).2.error
        = none := by
  have h := (get_price_resolution ⟨[⟨1, 1, "PD"⟩], [⟨1, "PD", 90⟩], [⟨1, 1, -15⟩]⟩
      ⟨1⟩ ⟨1, 1⟩).2.2.1 ⟨1, 1, "PD"⟩ ⟨1, "PD", 90⟩ ⟨1, 1, -15⟩ rfl rfl rfl
  refine ⟨?_, h.2⟩
  rw [h.1]
  norm_num

/-- C6 counterexample: a zero discount satisfies "≤ 0" yet
`add_special_pricing` rejects it with `DiscountMustBeNegative`. -/
theorem add_special_pricing_zero_discount_rejected :
    add_special_pricing ⟨[], [], []⟩ 1 [⟨1, 1⟩] (some 1) (some 0)
        = .error SpecialPricingError.DiscountMustBeNegative
    ∧ (0 : Rat) ≤ 0 :=
  ⟨rfl, le_refl 0⟩

/-- C6 amended: with the item present and no existing override for the
pair, `add_special_pricing` accepts a discount exactly when it is
strictly negative; zero is rejected. -/
theorem add_special_pricing_accepts_iff_negative (db : PricingDb)
    (customer_id : Nat) (items : List ItemT) (item_id : Nat) (d : Rat)
    (it : ItemT)
    (hitem : items.find? (fun x => x.item_id == item_id) = some it)
    (hdup : db.customerSpecialPricing.any
        (fun r => r.customer_id == customer_id && r.item_id == item_id) = false) :
    (add_special_pricing db customer_id items (some item_id) (some d)).isOk = true
      ↔ d < 0 := by
  by_cases hd : d < 0 <;>
    simp [add_special_pricing, validate_special_pricing_discount, hitem, hdup,
      hd, Except.isOk, Except.toBool]

/-- C6 witness: a discount of −15 for an existing item with no prior
override is accepted. -/
theorem add_special_pricing_accepts_iff_negative_witness :
    (add_special_pricing ⟨[], [], []⟩ 1 [⟨1, 1⟩] (some 1) (some (-15))).isOk
      = true :=
  (add_special_pricing_accepts_iff_negative ⟨[], [], []⟩ 1 [⟨1, 1⟩] 1 (-15)
    ⟨1, 1⟩ rfl rfl).mpr (by norm_num)

/-- C3 counterexample: `reserve_quantity` accepts a negative request
(its guard only rejects requests above the available quantity), and on
a freshly created batch of 3 it leaves `quantity_available = 4`, above
`initial_quantity = 3` — the invariant is not preserved by every
accepted mutation. -/
theorem reserve_negative_breaks_invariant :
    applyBatchOps (createdBatchQty 3) [BatchOp.reserve (-1)]
        = some { initial_quantity := 3, quantity_available := 4,
                 quantity_reserved := -1, batch_status := "Active" }
    ∧ ¬ ((4 : Int) ≤ (3 : Int)) :=
  ⟨rfl, by decide⟩

/-- C3 amended: starting from a batch as created by a Receive line
(`remaining = initial`, nothing reserved), every sequence of
reservation / release / fulfillment operations with nonnegative
requested quantities that succeeds preserves
`0 ≤ remaining_quantity ≤ initial_quantity`. -/
theorem batch_ops_preserve_invariant (q0 : Int) (ops : List BatchOp)
    (b : BatchQty) (hq : ∀ op ∈ ops, 0 ≤ op.qty)
    (h : applyBatchOps (createdBatchQty q0) ops = some b) :
    0 ≤ b.quantity_available ∧ b.quantity_available ≤ b.initial_quantity := by
  have hinv := applyBatchOps_inv (batchInv_createdBatchQty q0) hq h
  obtain ⟨h1, h2, h3⟩ := hinv
  exact ⟨h1, by omega⟩

/-- C3 witness: reserve 2, release 1, then fulfill 1 on a batch created
with quantity 5 succeeds and leaves 4 available, within the bound 5. -/
theorem batch_ops_preserve_invariant_witness :
    0 ≤ (BatchQty.mk 5 4 0 "Active").quantity_available
    ∧ (BatchQty.mk 5 4 0 "Active").quantity_available
        ≤ (BatchQty.mk 5 4 0 "Active").initial_quantity :=
  batch_ops_preserve_invariant 5
    [BatchOp.reserve 2, BatchOp.release 1, BatchOp.fulfill 1]
    (BatchQty.mk 5 4 0 "Active") (by decide) rfl

lemma processLine_transactions {ttype : String} {st : DbState}
    {ld : LineData} {st' : DbState}
    (h : processLine ttype st ld = .ok st') :
    st'.transactions = st.transactions := by
  simp only [processLine] at h
  split at h
  · exact absurd h (by simp)
  · split at h
    · split at h
      · exact absurd h (by simp)
      · split at h
        · exact absurd h (by simp)
        · split at h
          · exact absurd h (by simp)
          · split at h
            · exact absurd h (by simp)
            · cases h; rfl
    · split at h
      · cases h; rfl
      · cases h; rfl

lemma runLines_transactions {ttype : String} {lds : List LineData}
    {st : DbState} {oe : Option CreateError} {st' : DbState}
    (h : runLines ttype st lds = (oe, st')) :
    st'.transactions = st.transactions := by
  induction lds generalizing st with
  | nil => simp only [runLines] at h; cases h; rfl
  | cons ld rest ih =>
    simp only [runLines] at h
    cases hpl : processLine ttype st ld with
    | error e => rw [hpl] at h; cases h; rfl
    | ok st1 =>
      rw [hpl] at h
      exact (ih h).trans (processLine_transactions hpl)

lemma runLines_error_prefix {ttype : String} {lds : List LineData}
    {st : DbState} {e : CreateError} {st' : DbState}
    (h : runLines ttype st lds = (some e, st')) :
    ∃ n, runLines ttype st (lds.take n) = (none, st') := by
  induction lds generalizing st with
  | nil => simp only [runLines] at h; simp at h
  | cons ld rest ih =>
    simp only [runLines] at h
    cases hpl : processLine ttype st ld with
    | error e' =>
      rw [hpl] at h
      cases h
      exact ⟨0, rfl⟩
    | ok st1 =>
      rw [hpl] at h
      obtain ⟨n, hn⟩ := ih h
      refine ⟨n + 1, ?_⟩
      simp only [List.take_succ_cons, runLines, hpl]
      exact hn

/-- The batches produced by transaction processing: all Active with a
nonnegative available quantity. -/
def BatchesActiveNonneg (st : DbState) : Prop :=
  ∀ b ∈ st.batches, b.batch_status = "Active" ∧ 0 ≤ b.quantity_available

lemma processLine_batches_inv {ttype : String} {st : DbState}
    {ld : LineData} {st' : DbState}
    (h : processLine ttype st ld = .ok st') (hin : BatchesActiveNonneg st) :
    BatchesActiveNonneg st' := by
  simp only [processLine] at h
  split at h
  · exact absurd h (by simp)
  · split at h
    · split at h
      · exact absurd h (by simp)
      · split at h
        · exact absurd h (by simp)
        · split at h
          · exact absurd h (by simp)
          · split at h
            · exact absurd h (by simp)
            · cases h
              intro b hb
              rcases List.mem_cons.mp hb with hb | hb
              · subst hb
                exact ⟨rfl, by positivity⟩
              · exact hin b hb
    · split at h
      · cases h; exact hin
      · cases h; exact hin

lemma runLines_batches_inv {ttype : String} {lds : List LineData}
    {st : DbState} {oe : Option CreateError} {st' : DbState}
    (h : runLines ttype st lds = (oe, st')) (hin : BatchesActiveNonneg st) :
    BatchesActiveNonneg st' := by
  induction lds generalizing st with
  | nil => simp only [runLines] at h; cases h; exact hin
  | cons ld rest ih =>
    simp only [runLines] at h
    cases hpl : processLine ttype st ld with
    | error e => rw [hpl] at h; cases h; exact hin
    | ok st1 =>
      rw [hpl] at h
      exact ih h (processLine_batches_inv hpl hin)

lemma createTransaction_batches_inv {st : DbState} {req : CreateRequest}
    (hin : BatchesActiveNonneg st) :
    BatchesActiveNonneg (createTransaction st req).2 := by
  have h : runLines req.transaction_type
      { st with transactions := newTransactionRow st req :: st.transactions }
      req.items = ((createTransaction st req).1, (createTransaction st req).2) := rfl
  exact runLines_batches_inv h hin

lemma applyRequests_batches_inv {st : DbState} (reqs : List CreateRequest)
    (hin : BatchesActiveNonneg st) :
    BatchesActiveNonneg (applyRequests st reqs) := by
  induction reqs generalizing st with
  | nil => exact hin
  | cons r rest ih =>
    exact ih (createTransaction_batches_inv hin)

lemma sum_filter_active_eq_pos (l : List BatchRow) (iid : Nat)
    (h : ∀ b ∈ l, b.batch_status = "Active" ∧ 0 ≤ b.quantity_available) :
    ((l.filter fun b => b.item_id == iid && b.batch_status == "Active").map
        (fun b => b.quantity_available)).sum
      = ((l.filter fun b => b.item_id == iid && 0 < b.quantity_available).map
        (fun b => b.quantity_available)).sum := by
  induction l with
  | nil => rfl
  | cons b rest ih =>
    have hb := h b (by simp)
    have hrest := ih fun x hx => h x (by simp [hx])
    by_cases hitem : b.item_id == iid
    · by_cases hpos : 0 < b.quantity_available
      · simp [List.filter_cons, hitem, hb.1, hpos, hrest]
      · have hz : b.quantity_available = 0 := le_antisymm (not_lt.mp hpos) hb.2
        simp [List.filter_cons, hitem, hb.1, hpos, hz, hrest]
    · simp [List.filter_cons, hitem, hrest]

/-- C1 counterexample: a Dispatch-goods line of 999 units against an
item holding 15 (one batch of 15 available) does not fail — the line
succeeds, the batch is untouched, and the item's recorded stock is
driven to −984, so the depletion is neither rejected nor
all-or-nothing. -/
theorem dispatch_overdeplete_mutates_stock :
    processLine "Dispatch goods"
        ⟨[⟨1, 15, 5, "In Stock"⟩], [⟨1, "B1", 30, 15, 15, 0, "Active"⟩], [], []⟩
        ⟨1, 999, none, none⟩
      = .ok ⟨[⟨1, -984, 5, "Out of Stock"⟩],
             [⟨1, "B1", 30, 15, 15, 0, "Active"⟩], [],
             [⟨1, none, -999, "SALE"⟩]⟩
    ∧ (-984 : Int) ≠ 15 :=
  ⟨rfl, by decide⟩

/-- C1 amended: an OUTGOING depletion without an explicit batch (the
Dispatch-goods path) never fails with an insufficient-stock error:
whenever the item exists the line succeeds, every batch retains its
quantities unchanged, and the item's recorded stock is decremented by
the full requested quantity with no clamp — past zero when the request
exceeds the stock, leaving a negative stored quantity. -/
theorem dispatch_no_insufficient_stock (st : DbState) (ld : LineData)
    (it : ItemRow)
    (hfind : st.items.find? (fun x => x.item_id == ld.item) = some it) :
    ∃ st', processLine "Dispatch goods" st ld = .ok st'
      ∧ st'.batches = st.batches
      ∧ { it with
            quantity := it.quantity - (ld.quantity_change.natAbs : Int)
            availability_status :=
              availabilityStatus (it.quantity - (ld.quantity_change.natAbs : Int))
                it.threshold_value }
          ∈ st'.items := by
  have hmem : it ∈ st.items := List.mem_of_find?_eq_some hfind
  refine ⟨{ st with
      changes := ⟨it.item_id, none, -(ld.quantity_change.natAbs : Int), "SALE"⟩
        :: st.changes
      items := saveItemQuantity st.items it.item_id
        (-(ld.quantity_change.natAbs : Int)) }, ?_, rfl, ?_⟩
  · simp [processLine, hfind]
  · unfold saveItemQuantity
    refine List.mem_map.mpr ⟨it, hmem, ?_⟩
    simp [sub_eq_add_neg]

/-- C1 witness: dispatching 999 of an item holding 15 succeeds, leaves
the batch of 15 unchanged and records stock −984. -/
theorem dispatch_no_insufficient_stock_witness :
    ∃ st', processLine "Dispatch goods"
        ⟨[⟨2, 15, 5, "In Stock"⟩], [⟨2, "B9", 30, 15, 15, 0, "Active"⟩], [], []⟩
        ⟨2, 999, none, none⟩
      = .ok st'
      ∧ st'.batches = [⟨2, "B9", 30, 15, 15, 0, "Active"⟩]
      ∧ { ItemRow.mk 2 15 5 "In Stock" with
            quantity := (15 : Int) - ((999 : Int).natAbs : Int)
            availability_status :=
              availabilityStatus ((15 : Int) - ((999 : Int).natAbs : Int)) 5 }
          ∈ st'.items :=
  dispatch_no_insufficient_stock
    ⟨[⟨2, 15, 5, "In Stock"⟩], [⟨2, "B9", 30, 15, 15, 0, "Active"⟩], [], []⟩
    ⟨2, 999, none, none⟩ (ItemRow.mk 2 15 5 "In Stock") rfl

/-- C5 counterexample: a Receive line with quantity −5 (≤ 0) is not
rejected with an invalid-quantity error; the serializer takes the
absolute value and creates a batch with
`initial_quantity = quantity_available = 5`. -/
theorem receive_nonpositive_quantity_no_failure :
    processLine "Receive Products"
        ⟨[⟨1, 0, 5, "Out of Stock"⟩], [], [], []⟩ ⟨1, -5, some "B1", some 10⟩
      = .ok ⟨[⟨1, 5, 5, "Low Stock"⟩], [⟨1, "B1", 10, 5, 5, 0, "Active"⟩], [],
             [⟨1, some "B1", 5, "PURCHASE"⟩]⟩
    ∧ (-5 : Int) ≤ 0 :=
  ⟨rfl, by decide⟩

/-- C5 amended: the Receive branch never fails on a non-positive
quantity; whenever it succeeds, the batch it prepends has
`quantity_available = initial_quantity = |quantity_change|`, nothing
reserved, and status Active. -/
theorem receive_batch_abs_quantity (st : DbState) (ld : LineData)
    (st' : DbState) (h : processLine "Receive Products" st ld = .ok st') :
    ∃ b, st'.batches = b :: st.batches
      ∧ b.initial_quantity = (ld.quantity_change.natAbs : Int)
      ∧ b.quantity_available = b.initial_quantity
      ∧ b.quantity_reserved = 0
      ∧ b.batch_status = "Active" := by
  simp only [processLine] at h
  split at h
  · exact absurd h (by simp)
  · simp only [beq_self_eq_true, if_true] at h
    split at h
    · exact absurd h (by simp)
    · split at h
      · exact absurd h (by simp)
      · split at h
        · exact absurd h (by simp)
        · split at h
          · exact absurd h (by simp)
          · cases h
            exact ⟨_, rfl, rfl, rfl, rfl, rfl⟩

/-- C5 witness: a Receive line of quantity 7 at cost 3 creates the
batch `B2` with available = initial = 7. -/
theorem receive_batch_abs_quantity_witness :
    ∃ b, (DbState.mk [⟨1, 7, 5, "In Stock"⟩]
            [⟨1, "B2", 3, 7, 7, 0, "Active"⟩] [] [⟨1, some "B2", 7, "PURCHASE"⟩]).batches
          = b :: (DbState.mk [⟨1, 0, 5, "Out of Stock"⟩] [] [] []).batches
      ∧ b.initial_quantity = ((LineData.mk 1 7 (some "B2") (some 3)).quantity_change.natAbs : Int)
      ∧ b.quantity_available = b.initial_quantity
      ∧ b.quantity_reserved = 0
      ∧ b.batch_status = "Active" :=
  receive_batch_abs_quantity (DbState.mk [⟨1, 0, 5, "Out of Stock"⟩] [] [] [])
    (LineData.mk 1 7 (some "B2") (some 3))
    (DbState.mk [⟨1, 7, 5, "In Stock"⟩] [⟨1, "B2", 3, 7, 7, 0, "Active"⟩] []
      [⟨1, some "B2", 7, "PURCHASE"⟩]) rfl

/-- C4 counterexample: a two-line Receive request whose second line
names an unknown item raises, yet the first line's batch, the item's
quantity update and the transaction row are all retained. -/
theorem create_partial_mutation_retained :
    createTransaction (DbState.mk [⟨1, 0, 5, "Out of Stock"⟩] [] [] [])
        (CreateRequest.mk "Receive Products"
          [⟨1, 5, some "B1", some 10⟩, ⟨99, 1, some "B2", some 10⟩])
      = (some (CreateError.ItemDoesNotExist 99),
         DbState.mk [⟨1, 5, 5, "Low Stock"⟩] [⟨1, "B1", 10, 5, 5, 0, "Active"⟩]
           [⟨1, "Receive Products"⟩] [⟨1, some "B1", 5, "PURCHASE"⟩])
    ∧ ([⟨1, "B1", 10, 5, 5, 0, "Active"⟩] : List BatchRow) ≠ []
    ∧ ([⟨1, 5, 5, "Low Stock"⟩] : List ItemRow) ≠ [⟨1, 0, 5, "Out of Stock"⟩]
    ∧ ([⟨1, "Receive Products"⟩] : List TransactionRow) ≠ [] :=
  ⟨rfl, by decide, by decide, by decide⟩

/-- C4 amended: transaction creation is not atomic — when any line
fails validation, the transaction row created up front is retained, as
are all mutations from the lines preceding the failing one; only the
failing line and the lines after it apply no mutation (the final state
is the state after some prefix of the lines). -/
theorem create_error_retains_prefix (st : DbState) (req : CreateRequest)
    (e : CreateError) (st' : DbState)
    (h : createTransaction st req = (some e, st')) :
    st'.transactions = newTransactionRow st req :: st.transactions
    ∧ ∃ n, runLines req.transaction_type
        { st with transactions := newTransactionRow st req :: st.transactions }
        (req.items.take n) = (none, st') := by
  simp only [createTransaction] at h
  exact ⟨runLines_transactions h, runLines_error_prefix h⟩

/-- C4 witness: on the two-line request above, the retained state is
the transaction row plus exactly the first line's mutations. -/
theorem create_error_retains_prefix_witness :
    (DbState.mk [⟨1, 5, 5, "Low Stock"⟩] [⟨1, "B1", 10, 5, 5, 0, "Active"⟩]
        [⟨1, "Receive Products"⟩] [⟨1, some "B1", 5, "PURCHASE"⟩]).transactions
      = newTransactionRow (DbState.mk [⟨1, 0, 5, "Out of Stock"⟩] [] [] [])
          (CreateRequest.mk "Receive Products"
            [⟨1, 5, some "B1", some 10⟩, ⟨99, 1, some "B2", some 10⟩])
        :: (DbState.mk [⟨1, 0, 5, "Out of Stock"⟩] [] [] []).transactions
    ∧ ∃ n, runLines "Receive Products"
        { DbState.mk [⟨1, 0, 5, "Out of Stock"⟩] [] [] [] with
          transactions :=
            newTransactionRow (DbState.mk [⟨1, 0, 5, "Out of Stock"⟩] [] [] [])
              (CreateRequest.mk "Receive Products"
                [⟨1, 5, some "B1", some 10⟩, ⟨99, 1, some "B2", some 10⟩])
            :: (DbState.mk [⟨1, 0, 5, "Out of Stock"⟩] [] [] []).transactions }
        ([⟨1, 5, some "B1", some 10⟩, ⟨99, 1, some "B2", some 10⟩].take n)
      = (none,
         DbState.mk [⟨1, 5, 5, "Low Stock"⟩] [⟨1, "B1", 10, 5, 5, 0, "Active"⟩]
           [⟨1, "Receive Products"⟩] [⟨1, some "B1", 5, "PURCHASE"⟩]) :=
  create_error_retains_prefix (DbState.mk [⟨1, 0, 5, "Out of Stock"⟩] [] [] [])
    (CreateRequest.mk "Receive Products"
      [⟨1, 5, some "B1", some 10⟩, ⟨99, 1, some "B2", some 10⟩])
    (CreateError.ItemDoesNotExist 99)
    (DbState.mk [⟨1, 5, 5, "Low Stock"⟩] [⟨1, "B1", 10, 5, 5, 0, "Active"⟩]
      [⟨1, "Receive Products"⟩] [⟨1, some "B1", 5, "PURCHASE"⟩]) rfl

/-- C7: after any sequence of transaction-create requests applied to a
state whose batches are all Active with nonnegative quantities (in
particular, a state with no batches), the reported
`total_available_quantity` of every item equals the sum of remaining
quantities across the item's batches with remaining quantity > 0: the
reported total is derived from the batches. -/
theorem total_available_matches_batches (st : DbState)
    (reqs : List CreateRequest) (iid : Nat) (hin : BatchesActiveNonneg st) :
    get_total_available_quantity (applyRequests st reqs) iid
      = specAvailableQuantity (applyRequests st reqs) iid := by
  have hinv := applyRequests_batches_inv reqs hin
  simp only [get_total_available_quantity, specAvailableQuantity]
  exact sum_filter_active_eq_pos _ iid hinv

/-- C7 witness: receiving 5 units and then dispatching 3 leaves the
reported total equal to the positive-batch sum. -/
theorem total_available_matches_batches_witness :
    get_total_available_quantity
        (applyRequests (DbState.mk [⟨1, 0, 5, "Out of Stock"⟩] [] [] [])
          [CreateRequest.mk "Receive Products" [⟨1, 5, some "B1", some 10⟩],
           CreateRequest.mk "Dispatch goods" [⟨1, 3, none, none⟩]]) 1
      = specAvailableQuantity
          (applyRequests (DbState.mk [⟨1, 0, 5, "Out of Stock"⟩] [] [] [])
            [CreateRequest.mk "Receive Products" [⟨1, 5, some "B1", some 10⟩],
             CreateRequest.mk "Dispatch goods" [⟨1, 3, none, none⟩]]) 1 :=
  total_available_matches_batches (DbState.mk [⟨1, 0, 5, "Out of Stock"⟩] [] [] [])
    [CreateRequest.mk "Receive Products" [⟨1, 5, some "B1", some 10⟩],
     CreateRequest.mk "Dispatch goods" [⟨1, 3, none, none⟩]] 1
    (by simp [BatchesActiveNonneg])

/-- C8 counterexample: a requested tier that is allowed but has no
item tier price does not fail and is not used — the call succeeds with
the price resolved from the customer's assigned tier (`SRP`, 100), so
the requested tier's price is not "taken directly". -/
theorem user_transaction_requested_tier_not_bypassed :
    (get_price_for_user_transaction
        (PricingDb.mk [⟨1, 1, "SRP"⟩] [⟨1, "SRP", 100⟩] [])
        ⟨1⟩ ⟨1, 1⟩ ⟨1⟩ (some "RD")).details.error = none
    ∧ lookupTierPrice (PricingDb.mk [⟨1, 1, "SRP"⟩] [⟨1, "SRP", 100⟩] [])
        ⟨1, 1⟩ "RD" = none
    ∧ (get_price_for_user_transaction
        (PricingDb.mk [⟨1, 1, "SRP"⟩] [⟨1, "SRP", 100⟩] [])
        ⟨1⟩ ⟨1, 1⟩ ⟨1⟩ (some "RD")).final_price = 100
    ∧ (get_price_for_user_transaction
        (PricingDb.mk [⟨1, 1, "SRP"⟩] [⟨1, "SRP", 100⟩] [])
        ⟨1⟩ ⟨1, 1⟩ ⟨1⟩ (some "RD")).tier_override = false :=
  ⟨rfl, rfl, rfl, rfl⟩

/-- C8 amended: a supplied requested tier outside the seller's allowed
tiers fails with `TierNotAllowed`; an allowed requested tier is used
directly — bypassing the customer's assigned tier — only when the item
has a tier price at it, and otherwise the standard customer-tier
resolution is returned unchanged; with no requested tier, an assigned
customer tier outside the seller's allowed tiers fails with
`TierNotAllowed`, and an allowed one keeps the standard price. -/
theorem user_transaction_tier_gate (db : PricingDb) (c : CustomerT)
    (i : ItemT) (u : AccountT) :
    (∀ t, can_sell_at_tier u t = false →
      (get_price_for_user_transaction db c i u (some t)).details.error
          = some PriceError.TierNotAllowed
        ∧ (get_price_for_user_transaction db c i u (some t)).final_price = 0)
    ∧ (∀ t itp, can_sell_at_tier u t = true →
        lookupTierPrice db i t = some itp →
        (get_price_for_user_transaction db c i u (some t)).final_price = itp.price
          ∧ (get_price_for_user_transaction db c i u (some t)).tier_override = true)
    ∧ (∀ t, can_sell_at_tier u t = true →
        lookupTierPrice db i t = none →
        (get_price_for_user_transaction db c i u (some t)).final_price
            = (get_price db c i).1
          ∧ (get_price_for_user_transaction db c i u (some t)).details
            = (get_price db c i).2)
    ∧ (∀ ct, (get_price db c i).2.pricing_tier = some ct →
        can_sell_at_tier u ct = false →
        (get_price_for_user_transaction db c i u none).details.error
            = some PriceError.TierNotAllowed
          ∧ (get_price_for_user_transaction db c i u none).final_price = 0)
    ∧ (∀ ct, (get_price db c i).2.pricing_tier = some ct →
        can_sell_at_tier u ct = true →
        (get_price_for_user_transaction db c i u none).final_price
          = (get_price db c i).1) := by
  refine ⟨fun t h1 => ?_, fun t itp h1 h2 => ?_, fun t h1 h2 => ?_,
    fun ct h1 h2 => ?_, fun ct h1 h2 => ?_⟩
  · simp [get_price_for_user_transaction, h1]
  · simp [get_price_for_user_transaction, h1, h2]
  · simp [get_price_for_user_transaction, h1, h2]
  · simp [get_price_for_user_transaction, h1, h2]
  · simp [get_price_for_user_transaction, h1, h2]

/-- C8 witness: requesting the unknown tier code `XX` (not among the
seller's allowed tiers) fails with `TierNotAllowed` and price 0. -/
theorem user_transaction_tier_gate_witness :
    (get_price_for_user_transaction
        (PricingDb.mk [⟨1, 1, "SRP"⟩] [⟨1, "SRP", 100⟩] [])
        ⟨1⟩ ⟨1, 1⟩ ⟨1⟩ (some "XX")).details.error
        = some PriceError.TierNotAllowed
    ∧ (get_price_for_user_transaction
        (PricingDb.mk [⟨1, 1, "SRP"⟩] [⟨1, "SRP", 100⟩] [])
        ⟨1⟩ ⟨1, 1⟩ ⟨1⟩ (some "XX")).final_price = 0 :=
  (user_transaction_tier_gate (PricingDb.mk [⟨1, 1, "SRP"⟩] [⟨1, "SRP", 100⟩] [])
    ⟨1⟩ ⟨1, 1⟩ ⟨1⟩).1 "XX" (by decide)

/-- C9: the reference-number generator computes "last value + 1" from a
read with no mutual exclusion; two callers that both read the same
state obtain the same reference number, and after both commit the
reference list holds the duplicate twice. -/
theorem next_reference_duplicate_under_race :
    raceNextReference [1, 2, 3] = (4, 4, [4, 4, 1, 2, 3])
    ∧ ([4, 4, 1, 2, 3] : List Nat).count 4 = 2 := by
  constructor <;> rfl

end Malldims
